import Mathlib

/-!
Shallow embedding of the `kolayxlsxstream` streaming XLSX writer.

The Go sources embedded here:
* `sink.go`      — cell/row encoder (`escapeXML`, `columnName`, `cellReference`,
  `generateRow`), the fixed XML template constants, and the template
  generators (`generateContentTypesXML`, `generateWorkbookXML`,
  `generateWorkbookRelsXML`), plus `Config`/`DefaultConfig`/`Stats`.
* `writer.go`    — the `Writer` state machine (`StartFile`, `WriteRow`,
  `WriteRows`, `FinishFile`, `startNewSheet`, `writeZipFile`).
* `s3sink.go`    — the multipart-upload sink (`NewS3Sink`, `Write`, `Close`,
  `uploadPart`, `completeMultipartUpload`, `abortMultipartUpload`).

Modelling conventions:
* Go `interface{}` cell values become the inductive `Value`.  Floating-point
  values and values of unrecognized type carry their `fmt.Sprintf("%v", v)`
  rendering as an opaque string (floating-point formatting itself is out of
  scope); integers of every Go width render in decimal, embedded as `Int`.
* The zip archive is modelled as the ordered list of created entry names
  plus, for worksheet entries, the streamed chunks held by the matching
  `SheetRec` (Go `sheetWriter`).  Compressed byte layout is out of scope.
* Every fallible underlying write (a `writeZipFile` call, a `Create`, a
  sheet-content `Write`, the zip close, the sink close) consults an oracle
  `Nat → Bool` at the writer's running I/O counter `ioIdx`; `true` means the
  write succeeds.  The all-success oracle `allOk` models a healthy sink.
  Go mutates the receiver in place, so each operation returns its result
  together with the (possibly partially mutated) state.
* Wall-clock fields of `Stats` (`Duration`, `RowsPerSecond`, ...) and the
  byte-level zip/deflate output are not modelled.
-/

namespace Kolayxlsxstream

/-! ## Cell/row encoder (sink.go) -/

/-- One character of `xml.EscapeText` as used by Go's `escapeXML`:
`"` `'` `&` `<` `>` and tab/newline/carriage-return become entities,
every other character is passed through. -/
def escapeChar (c : Char) : String :=
  if c = Char.ofNat 34 then "&#34;"
  else if c = Char.ofNat 39 then "&#39;"
  else if c = '&' then "&amp;"
  else if c = '<' then "&lt;"
  else if c = '>' then "&gt;"
  else if c = Char.ofNat 9 then "&#x9;"
  else if c = Char.ofNat 10 then "&#xA;"
  else if c = Char.ofNat 13 then "&#xD;"
  else String.singleton c

/-- Go `escapeXML`: escape special characters for XML content. -/
def escapeXML (s : String) : String :=
  String.join (s.toList.map escapeChar)

/-- The loop of Go `columnName`, acting on the 1-based column number:
`for col > 0 { col--; name = ('A'+col%26) + name; col /= 26 }`. -/
def columnLoop : Nat → String → String
  | 0, acc => acc
  | n + 1, acc => columnLoop (n / 26) ((Char.ofNat (65 + n % 26)).toString ++ acc)
decreasing_by exact Nat.lt_succ_of_le (Nat.div_le_self n 26)

/-- Go `columnName`: zero-based column index to Excel letters
(`A`, ..., `Z`, `AA`, ...). -/
def columnName (col : Nat) : String :=
  columnLoop (col + 1) ""

/-- Go `cellReference`: e.g. `A1`, `B2`, `AA10` (row is zero-based here,
printed 1-based). -/
def cellReference (row col : Nat) : String :=
  columnName col ++ toString (row + 1)

/-- A cell value, mirroring the type switch in Go `generateRow` over
`interface{}`:
* `str` — Go `string`;
* `intV` — any Go integer type (all render in decimal via `%v`);
* `float` — Go `float32`/`float64`, carrying its `%v` rendering;
* `boolV` — Go `bool`;
* `empty` — Go `nil`;
* `other` — a value of any unrecognized type, carrying its `%v` rendering. -/
inductive Value where
  | str (s : String)
  | intV (i : Int)
  | float (rendering : String)
  | boolV (b : Bool)
  | empty
  | other (rendering : String)
deriving DecidableEq, Repr

/-- The inline-string cell markup of Go `generateRow` (`t="inlineStr"`). -/
def inlineStrCell (ref t : String) : String :=
  "<c r=\"" ++ ref ++ "\" t=\"inlineStr\"><is><t>" ++ t ++ "</t></is></c>"

/-- The numeric cell markup of Go `generateRow` (shared by the integer and
floating-point branches). -/
def numCell (ref t : String) : String :=
  "<c r=\"" ++ ref ++ "\"><v>" ++ t ++ "</v></c>"

/-- The boolean cell markup of Go `generateRow` (`t="b"`, literal 0/1). -/
def boolCell (ref : String) (b : Bool) : String :=
  "<c r=\"" ++ ref ++ "\" t=\"b\"><v>" ++ (if b then "1" else "0") ++ "</v></c>"

/-- The empty (address-only) cell markup of Go `generateRow`. -/
def emptyCell (ref : String) : String :=
  "<c r=\"" ++ ref ++ "\"/>"

/-- The type switch of Go `generateRow`: one cell's markup. -/
def cellXML (ref : String) : Value → String
  | .str s => inlineStrCell ref (escapeXML s)
  | .intV i => numCell ref (toString i)
  | .float r => numCell ref r
  | .boolV b => boolCell ref b
  | .empty => emptyCell ref
  | .other r => inlineStrCell ref (escapeXML r)

/-- The cell loop of Go `generateRow`, accumulating cells left to right
with running zero-based column index. -/
def cellsFrom (rowIndex : Nat) : Nat → List Value → String
  | _, [] => ""
  | colIndex, v :: vs =>
      cellXML (cellReference rowIndex colIndex) v ++ cellsFrom rowIndex (colIndex + 1) vs

/-- Go `generateRow`: one `<row>` element (rowIndex is zero-based, printed
1-based in the `r` attribute). -/
def generateRow (rowIndex : Nat) (values : List Value) : String :=
  "<row r=\"" ++ toString (rowIndex + 1) ++ "\">" ++ cellsFrom rowIndex 0 values ++ "</row>"

/-! ## Fixed template constants and generators (sink.go) -/

/-- Go constant `relsXML` (root relationship list). -/
def relsXML : String :=
  "<?xml version=\"1.0\" encoding=\"UTF-8\" standalone=\"yes\"?>\n<Relationships xmlns=\"http://schemas.openxmlformats.org/package/2006/relationships\">\n<Relationship Id=\"rId1\" Type=\"http://schemas.openxmlformats.org/officeDocument/2006/relationships/officeDocument\" Target=\"xl/workbook.xml\"/>\n</Relationships>"

/-- Go constant `stylesXML` (fixed style sheet). -/
def stylesXML : String :=
  "<?xml version=\"1.0\" encoding=\"UTF-8\" standalone=\"yes\"?>\n<styleSheet xmlns=\"http://schemas.openxmlformats.org/spreadsheetml/2006/main\">\n<fonts count=\"1\"><font><sz val=\"11\"/><name val=\"Calibri\"/></font></fonts>\n<fills count=\"2\"><fill><patternFill patternType=\"none\"/></fill><fill><patternFill patternType=\"gray125\"/></fill></fills>\n<borders count=\"1\"><border><left/><right/><top/><bottom/><diagonal/></border></borders>\n<cellStyleXfs count=\"1\"><xf numFmtId=\"0\" fontId=\"0\" fillId=\"0\" borderId=\"0\"/></cellStyleXfs>\n<cellXfs count=\"1\"><xf numFmtId=\"0\" fontId=\"0\" fillId=\"0\" borderId=\"0\" xfId=\"0\"/></cellXfs>\n</styleSheet>"

/-- Go constant `worksheetHeader`. -/
def worksheetHeader : String :=
  "<?xml version=\"1.0\" encoding=\"UTF-8\" standalone=\"yes\"?>\n<worksheet xmlns=\"http://schemas.openxmlformats.org/spreadsheetml/2006/main\">\n<sheetData>"

/-- Go constant `worksheetFooter`. -/
def worksheetFooter : String :=
  "</sheetData>\n</worksheet>"

/-- Go constant `workbookXMLHeader`. -/
def workbookXMLHeader : String :=
  "<?xml version=\"1.0\" encoding=\"UTF-8\" standalone=\"yes\"?>\n<workbook xmlns=\"http://schemas.openxmlformats.org/spreadsheetml/2006/main\" xmlns:r=\"http://schemas.openxmlformats.org/officeDocument/2006/relationships\">\n<sheets>"

/-- Go constant `workbookXMLFooter`. -/
def workbookXMLFooter : String :=
  "</sheets>\n</workbook>"

/-- Go constant `workbookRelsXMLHeader`. -/
def workbookRelsXMLHeader : String :=
  "<?xml version=\"1.0\" encoding=\"UTF-8\" standalone=\"yes\"?>\n<Relationships xmlns=\"http://schemas.openxmlformats.org/package/2006/relationships\">"

/-- Go constant `workbookRelsXMLFooter`. -/
def workbookRelsXMLFooter : String :=
  "<Relationship Id=\"rId999\" Type=\"http://schemas.openxmlformats.org/officeDocument/2006/relationships/styles\" Target=\"styles.xml\"/>\n</Relationships>"

/-- The fixed head of Go's `contentTypesXML` format string (everything
before the `%s` hole). -/
def contentTypesHead : String :=
  "<?xml version=\"1.0\" encoding=\"UTF-8\" standalone=\"yes\"?>\n<Types xmlns=\"http://schemas.openxmlformats.org/package/2006/content-types\">\n<Default Extension=\"rels\" ContentType=\"application/vnd.openxmlformats-package.relationships+xml\"/>\n<Default Extension=\"xml\" ContentType=\"application/xml\"/>\n<Override PartName=\"/xl/workbook.xml\" ContentType=\"application/vnd.openxmlformats-officedocument.spreadsheetml.sheet.main+xml\"/>\n<Override PartName=\"/xl/styles.xml\" ContentType=\"application/vnd.openxmlformats-officedocument.spreadsheetml.styles+xml\"/>\n"

/-- The fixed tail of Go's `contentTypesXML` format string (after the `%s`
hole). -/
def contentTypesTail : String :=
  "</Types>"

/-- Go `generateContentTypesXML`: one worksheet override per sheet,
1-based, in ordinal order. -/
def generateContentTypesXML (sheetCount : Nat) : String :=
  contentTypesHead ++
    String.join ((List.range sheetCount).map (fun i =>
      "<Override PartName=\"/xl/worksheets/sheet" ++ toString (i + 1) ++
        ".xml\" ContentType=\"application/vnd.openxmlformats-officedocument.spreadsheetml.worksheet+xml\"/>\n")) ++
    contentTypesTail

/-- Go `generateWorkbookXML`: one `<sheet>` declaration per worksheet,
named `pfx ++ ordinal`, with `sheetId` and `r:id` equal to the ordinal. -/
def generateWorkbookXML (sheetCount : Nat) (pfx : String) : String :=
  workbookXMLHeader ++
    String.join ((List.range sheetCount).map (fun i =>
      "<sheet name=\"" ++ pfx ++ toString (i + 1) ++ "\" sheetId=\"" ++ toString (i + 1) ++
        "\" r:id=\"rId" ++ toString (i + 1) ++ "\"/>\n")) ++
    workbookXMLFooter

/-- Go `generateWorkbookRelsXML`: one worksheet relationship per sheet. -/
def generateWorkbookRelsXML (sheetCount : Nat) : String :=
  workbookRelsXMLHeader ++
    String.join ((List.range sheetCount).map (fun i =>
      "<Relationship Id=\"rId" ++ toString (i + 1) ++
        "\" Type=\"http://schemas.openxmlformats.org/officeDocument/2006/relationships/worksheet\" Target=\"worksheets/sheet" ++
        toString (i + 1) ++ ".xml\"/>\n")) ++
    workbookRelsXMLFooter

/-! ## Writer data model (sink.go `Config`/`Stats`, writer.go `Writer`) -/

/-- Go `Config` (sink.go).  `SheetNamePrefix` is embedded as `sheetPfx`. -/
structure Config where
  compressionLevel : Int
  bufferSize : Int
  maxRowsPerSheet : Nat
  sheetPfx : String
deriving DecidableEq, Repr

/-- Go `DefaultConfig`. -/
def defaultConfig : Config :=
  { compressionLevel := 6
    bufferSize := 64 * 1024
    maxRowsPerSheet := 1048576
    sheetPfx := "Sheet" }

/-- Go `Stats` (the wall-clock fields `Duration`, `RowsPerSecond`, ... are
not modelled). -/
structure Stats where
  totalRows : Int
  totalSheets : Nat
deriving DecidableEq, Repr

/-- The errors a writer operation can return.  Go returns `error` values;
the lifecycle messages are `"file already started"`, `"file not started,
call StartFile first"` / `"file not started"`, `"file already finished"`.
`ioFailure` carries Go's wrapping message for a failed underlying write.
`indexOutOfRange` marks where Go would panic indexing `sheetWriters`
(unreachable through the public API). -/
inductive WriterErr where
  | alreadyStarted
  | notStarted
  | alreadyFinished
  | ioFailure (msg : String)
  | indexOutOfRange
deriving DecidableEq, Repr

/-- Go `sheetWriter` (writer.go).  `content` holds the chunks streamed to
this worksheet's zip entry in order (`io.Writer` bytes). -/
structure SheetRec where
  content : List String
  rowCount : Nat
  sheetIndex : Nat
  headersDone : Bool
  closed : Bool
deriving DecidableEq, Repr

/-- The name of one zip entry, with its Go path recoverable via
`entryPath`. -/
inductive EntryName where
  | relsRels
  | styles
  | workbook
  | workbookRels
  | contentTypes
  | worksheet (n : Nat)
deriving DecidableEq, Repr

/-- The Go path of a zip entry. -/
def entryPath : EntryName → String
  | .relsRels => "_rels/.rels"
  | .styles => "xl/styles.xml"
  | .workbook => "xl/workbook.xml"
  | .workbookRels => "xl/_rels/workbook.xml.rels"
  | .contentTypes => "[Content_Types].xml"
  | .worksheet n => "xl/worksheets/sheet" ++ toString n ++ ".xml"

/-- Go `Writer` (writer.go).  `entries` is the ordered list of zip entries
created so far, each with the data passed to `writeZipFile` (worksheet
entries are created empty and streamed through their `SheetRec.content`).
`ioIdx` counts fallible underlying writes, indexing the oracle. -/
structure WriterState where
  config : Config
  started : Bool
  finished : Bool
  sheetWriters : List SheetRec
  currentSheetIndex : Nat
  totalRows : Int
  entries : List (EntryName × String)
  ioIdx : Nat
deriving DecidableEq, Repr

/-- Go `NewWriter`. -/
def newWriter (cfg : Config) : WriterState :=
  { config := cfg
    started := false
    finished := false
    sheetWriters := []
    currentSheetIndex := 0
    totalRows := 0
    entries := []
    ioIdx := 0 }

/-- Replace the element at an index (Go's in-place `sheetWriters[i]`
mutation). -/
def listModify (f : SheetRec → SheetRec) : Nat → List SheetRec → List SheetRec
  | _, [] => []
  | 0, a :: as => f a :: as
  | n + 1, a :: as => a :: listModify f n as

/-- Replace the final element (Go's `sheetWriters[len-1]` mutation). -/
def modifyLast (f : SheetRec → SheetRec) : List SheetRec → List SheetRec
  | [] => []
  | [a] => [f a]
  | a :: b :: rest => a :: modifyLast f (b :: rest)

/-- Go's `if err != nil { return ..., err }` sequencing: run the
continuation only when the previous step succeeded, propagating the error
and the (possibly mutated) state otherwise. -/
def bindW (x : Except WriterErr Unit × WriterState)
    (f : WriterState → Except WriterErr α × WriterState) :
    Except WriterErr α × WriterState :=
  match x with
  | (.ok _, st) => f st
  | (.error e, st) => (.error e, st)

theorem bindW_ok (st : WriterState) (f : WriterState → Except WriterErr α × WriterState) :
    bindW (.ok (), st) f = f st := rfl

theorem bindW_error (e : WriterErr) (st : WriterState)
    (f : WriterState → Except WriterErr α × WriterState) :
    bindW (.error e, st) f = (.error e, st) := rfl

/-- One fallible underlying write: consult the oracle at the current
`ioIdx`; on success apply the state update `f`, on failure return
`ioFailure msg` (Go leaves earlier mutations in place either way). -/
def ioAttempt (oracle : Nat → Bool) (st : WriterState) (msg : String)
    (f : WriterState → WriterState) : Except WriterErr Unit × WriterState :=
  if oracle st.ioIdx then (.ok (), f { st with ioIdx := st.ioIdx + 1 })
  else (.error (.ioFailure msg), { st with ioIdx := st.ioIdx + 1 })

/-- Go `writeZipFile`: create a whole zip entry and copy `data` into it
(`Create` and `io.Copy` are folded into one fallible write). -/
def writeZipFile (oracle : Nat → Bool) (st : WriterState) (name : EntryName)
    (data : String) (msg : String) : Except WriterErr Unit × WriterState :=
  ioAttempt oracle st msg (fun s => { s with entries := s.entries ++ [(name, data)] })

/-- Go `startNewSheet`: close the previous sheet with its footer if still
open, create the next worksheet entry, write the worksheet header, and
append a fresh `sheetWriter`.  On a header-write failure the zip entry
exists but no `sheetWriter` is appended, exactly as in the source. -/
def startNewSheet (oracle : Nat → Bool) (st : WriterState) :
    Except WriterErr Unit × WriterState :=
  let closePrev : Except WriterErr Unit × WriterState :=
    match st.sheetWriters.getLast? with
    | some prev =>
        if prev.closed then (.ok (), st)
        else
          ioAttempt oracle st "failed to close previous sheet" (fun s =>
            let sheets := modifyLast
              (fun sw => { sw with content := sw.content ++ [worksheetFooter], closed := true })
              s.sheetWriters
            { s with sheetWriters := sheets })
    | none => (.ok (), st)
  bindW closePrev (fun st1 =>
    let sheetNum := st1.sheetWriters.length + 1
    bindW (writeZipFile oracle st1 (.worksheet sheetNum) "" "failed to create sheet")
      (fun st2 =>
        ioAttempt oracle st2 "failed to write worksheet header" (fun s =>
          let sw : SheetRec :=
            { content := [worksheetHeader ++ "\n"]
              rowCount := 0
              sheetIndex := sheetNum - 1
              headersDone := false
              closed := false }
          let sheets := s.sheetWriters ++ [sw]
          { s with sheetWriters := sheets, currentSheetIndex := sheets.length - 1 })))

/-- The append half of Go `WriteRow`, after the rollover check: re-read
the current sheet writer, generate the row markup from the sheet-local
`rowCount`, write it plus a newline, then bump both counters. -/
def writeRowAppend (oracle : Nat → Bool) (st : WriterState) (values : List Value) :
    Except WriterErr Unit × WriterState :=
  match st.sheetWriters.get? st.currentSheetIndex with
  | none => (.error .indexOutOfRange, st)
  | some cw =>
      let rowXML := generateRow cw.rowCount values
      ioAttempt oracle st "failed to write row" (fun s =>
        let sheets := listModify
          (fun sw => { sw with content := sw.content ++ [rowXML ++ "\n"],
                               rowCount := sw.rowCount + 1 })
          s.currentSheetIndex s.sheetWriters
        { s with sheetWriters := sheets, totalRows := s.totalRows + 1 })

/-- Go `WriteRow`: lifecycle checks, rollover strictly before appending
(`rowCount >= MaxRowsPerSheet` starts a new sheet), then append. -/
def writeRow (oracle : Nat → Bool) (st : WriterState) (values : List Value) :
    Except WriterErr Unit × WriterState :=
  if !st.started then (.error .notStarted, st)
  else if st.finished then (.error .alreadyFinished, st)
  else
    match st.sheetWriters.get? st.currentSheetIndex with
    | none => (.error .indexOutOfRange, st)
    | some cw =>
        if cw.rowCount ≥ st.config.maxRowsPerSheet then
          bindW (startNewSheet oracle st) (fun st1 => writeRowAppend oracle st1 values)
        else writeRowAppend oracle st values

/-- Go `WriteRows`: sequential `WriteRow`, stopping at the first failure. -/
def writeRows (oracle : Nat → Bool) (st : WriterState) :
    List (List Value) → Except WriterErr Unit × WriterState
  | [] => (.ok (), st)
  | r :: rs => bindW (writeRow oracle st r) (fun st1 => writeRows oracle st1 rs)

/-- Go `StartFile`: lifecycle check, mark started, write the fixed
template entries, open worksheet #1, and optionally write the header row,
which is excluded from the row-count statistic (`totalRows--`).  Go's
variadic `headers ...[]interface{}` becomes an `Option`; an empty header
slice counts as no header (`len(headers[0]) > 0`). -/
def startFile (oracle : Nat → Bool) (st : WriterState) (headers : Option (List Value)) :
    Except WriterErr Unit × WriterState :=
  if st.started then (.error .alreadyStarted, st)
  else
    let st0 := { st with started := true }
    bindW (writeZipFile oracle st0 .relsRels relsXML "failed to write _rels/.rels") (fun st1 =>
      bindW (writeZipFile oracle st1 .styles stylesXML "failed to write styles.xml") (fun st2 =>
        bindW (startNewSheet oracle st2) (fun st3 =>
          match headers with
          | some h =>
              if h.isEmpty then (.ok (), st3)
              else
                bindW (writeRow oracle st3 h) (fun st4 =>
                  let sheets :=
                    listModify (fun sw => { sw with headersDone := true }) 0 st4.sheetWriters
                  (.ok (), { st4 with sheetWriters := sheets,
                                      totalRows := st4.totalRows - 1 }))
          | none => (.ok (), st3))))

/-- Go `FinishFile`: lifecycle checks, mark finished (before any
finalization I/O), close the last sheet if still open, write the workbook
manifest, the workbook relationship list and the content-type manifest
(all functions of the now-final sheet count), close the zip writer, close
the sink, and return the statistics snapshot. -/
def finishFile (oracle : Nat → Bool) (st : WriterState) :
    Except WriterErr Stats × WriterState :=
  if !st.started then (.error .notStarted, st)
  else if st.finished then (.error .alreadyFinished, st)
  else
    let st0 := { st with finished := true }
    let closeLast : Except WriterErr Unit × WriterState :=
      match st0.sheetWriters.getLast? with
      | some lastS =>
          if lastS.closed then (.ok (), st0)
          else
            ioAttempt oracle st0 "failed to write worksheet footer" (fun s =>
              let sheets := modifyLast
                (fun sw => { sw with content := sw.content ++ [worksheetFooter], closed := true })
                s.sheetWriters
              { s with sheetWriters := sheets })
      | none => (.ok (), st0)
    bindW closeLast (fun st1 =>
      bindW (writeZipFile oracle st1 .workbook
          (generateWorkbookXML st1.sheetWriters.length st1.config.sheetPfx)
          "failed to write workbook.xml") (fun st2 =>
        bindW (writeZipFile oracle st2 .workbookRels
            (generateWorkbookRelsXML st2.sheetWriters.length)
            "failed to write workbook.xml.rels") (fun st3 =>
          bindW (writeZipFile oracle st3 .contentTypes
              (generateContentTypesXML st3.sheetWriters.length)
              "failed to write [Content_Types].xml") (fun st4 =>
            bindW (ioAttempt oracle st4 "failed to close zip writer" id) (fun st5 =>
              bindW (ioAttempt oracle st5 "failed to close sink" id) (fun st6 =>
                (.ok { totalRows := st6.totalRows
                       totalSheets := st6.sheetWriters.length }, st6)))))))

/-- The all-success oracle: a sink that accepts every write. -/
def allOk : Nat → Bool := fun _ => true

/-- A full export run: `NewWriter` with row ceiling `M` (other fields at
their defaults), `StartFile`, `WriteRows`, `FinishFile`. -/
def runWriter (M : Nat) (headers : Option (List Value)) (rows : List (List Value)) :
    Except WriterErr Stats × WriterState :=
  let st0 := newWriter { defaultConfig with maxRowsPerSheet := M }
  bindW (startFile allOk st0 headers) (fun st1 =>
    bindW (writeRows allOk st1 rows) (fun st2 => finishFile allOk st2))

/-- The per-worksheet physical row counts, in sheet order. -/
def sheetCounts (st : WriterState) : List Nat :=
  st.sheetWriters.map (fun s => s.rowCount)

/-- The row count of the currently open (last) worksheet, 0 when no sheet
exists yet. -/
def lastRowCount (st : WriterState) : Nat :=
  (st.sheetWriters.getLast?.map (fun s => s.rowCount)).getD 0

/-- Whether a zip entry is a worksheet entry. -/
def isWsEntry : EntryName × String → Bool
  | (.worksheet _, _) => true
  | _ => false

/-- How many worksheet entries the archive holds. -/
def wsEntryCount (st : WriterState) : Nat :=
  st.entries.countP isWsEntry

/-! ## Chunked-upload sink (s3sink.go)

Only what the network observes is modelled: buffered byte counts, part
numbers, acknowledgment tags (ETags) and the call trace.  Byte contents,
bucket/key and the optional request decorations (ACL, content type,
metadata, storage tier, encryption) carry no algorithmic weight here. -/

/-- Go `types.CompletedPart`: one acknowledged part. -/
structure CompletedPart where
  eTag : String
  partNumber : Nat
deriving DecidableEq, Repr

/-- The remote service's responses, as exercised through the mock client of
the tests: `uploadPartETag n` is the acknowledgment tag returned for
uploading part number `n` (`none` = the transfer fails), `completeOk` is
whether session completion succeeds. -/
structure S3Client where
  uploadPartETag : Nat → Option String
  completeOk : Bool

/-- One observable remote call made by the sink. -/
inductive S3Event where
  | uploadPartCall (partNumber size : Nat)
  | completeCall (parts : List CompletedPart)
  | abortCall
deriving DecidableEq, Repr

/-- Go `S3Sink` state: the in-memory part buffer (length only), the next
part sequence number (starts at 1), the acknowledged parts in order, and
the running byte total. -/
structure S3SinkState where
  partSize : Nat
  buffer : Nat
  partNumber : Nat
  completedParts : List CompletedPart
  totalBytes : Nat
deriving DecidableEq, Repr

/-- The freshly initiated sink built by Go `NewS3Sink` (after a successful
`CreateMultipartUpload`). -/
def initS3 (partSize : Nat) : S3SinkState :=
  { partSize := partSize
    buffer := 0
    partNumber := 1
    completedParts := []
    totalBytes := 0 }

/-- Go `NewS3Sink`: validate the configured part size (at least 5 MiB)
and initiate the upload session. -/
def newS3Sink (partSize : Nat) : Except String S3SinkState :=
  if partSize < 5 * 1024 * 1024 then .error "part size must be at least 5MB"
  else .ok (initS3 partSize)

/-- Go `S3Sink.uploadPart`: transmit the whole current buffer as one
numbered part; on acknowledgment record the `{ETag, PartNumber}` pair,
reset the buffer and advance the part number. -/
def uploadPart (c : S3Client) (st : S3SinkState) :
    Except String Unit × S3SinkState × List S3Event :=
  if st.buffer = 0 then (.ok (), st, [])
  else
    let evs := [S3Event.uploadPartCall st.partNumber st.buffer]
    match c.uploadPartETag st.partNumber with
    | none => (.error "upload part failed", st, evs)
    | some tag =>
        (.ok (),
          { st with
              buffer := 0
              partNumber := st.partNumber + 1
              completedParts := st.completedParts ++ [⟨tag, st.partNumber⟩] },
          evs)

/-- Go `S3Sink.Write`: buffer the bytes (always accepted), then upload one
part if the buffer has reached the configured part size. -/
def s3Write (c : S3Client) (st : S3SinkState) (n : Nat) :
    Except String Unit × S3SinkState × List S3Event :=
  let st1 := { st with buffer := st.buffer + n, totalBytes := st.totalBytes + n }
  if st1.buffer ≥ st1.partSize then
    match uploadPart c st1 with
    | (.error m, st2, evs) => (.error ("failed to upload part: " ++ m), st2, evs)
    | (.ok _, st2, evs) => (.ok (), st2, evs)
  else (.ok (), st1, [])

/-- Go `S3Sink.Close`: flush any remaining buffered bytes as a final part
(a failure here is returned directly, with no abort), then complete the
session with the ordered list of acknowledged parts; if completion fails,
abort the session before returning the failure. -/
def s3Close (c : S3Client) (st : S3SinkState) :
    Except String Unit × S3SinkState × List S3Event :=
  let flushed : Except String Unit × S3SinkState × List S3Event :=
    if st.buffer > 0 then uploadPart c st else (.ok (), st, [])
  match flushed with
  | (.error m, st1, evs) => (.error ("failed to upload final part: " ++ m), st1, evs)
  | (.ok _, st1, evs) =>
      let evs2 := evs ++ [S3Event.completeCall st1.completedParts]
      if c.completeOk then (.ok (), st1, evs2)
      else (.error "failed to complete multipart upload", st1, evs2 ++ [S3Event.abortCall])

/-- A sequence of `Write` calls, accumulating the call trace and stopping
at the first failure. -/
def s3WriteAll (c : S3Client) (st : S3SinkState) :
    List Nat → Except String Unit × S3SinkState × List S3Event
  | [] => (.ok (), st, [])
  | n :: ns =>
      match s3Write c st n with
      | (.ok _, st1, evs) =>
          match s3WriteAll c st1 ns with
          | (r, st2, evs2) => (r, st2, evs ++ evs2)
      | (.error m, st1, evs) => (.error m, st1, evs)

/-- Go `S3Sink.PartCount`. -/
def partCount (st : S3SinkState) : Nat :=
  st.completedParts.length

/-! ## List helper lemmas -/

theorem listModify_concat (f : SheetRec → SheetRec) (pre : List SheetRec) (a : SheetRec) :
    listModify f pre.length (pre ++ [a]) = pre ++ [f a] := by
  induction pre with
  | nil => rfl
  | cons x xs ih => simpa [listModify] using ih

theorem modifyLast_concat (f : SheetRec → SheetRec) (pre : List SheetRec) (a : SheetRec) :
    modifyLast f (pre ++ [a]) = pre ++ [f a] := by
  induction pre with
  | nil => rfl
  | cons x xs ih =>
      cases xs with
      | nil => rfl
      | cons y ys => simp [modifyLast] at ih ⊢; exact ih

theorem get?_concat_self (pre : List SheetRec) (a : SheetRec) :
    (pre ++ [a]).get? pre.length = some a := by
  induction pre with
  | nil => rfl
  | cons x xs ih => simp only [List.cons_append, List.length_cons, List.get?]; exact ih

/-! ## The writer's reachable-state invariant

`Inv M P st` describes the writer after a successful `StartFile` and any
number of successful `WriteRow` calls, where `M` is the configured row
ceiling and `P` the number of physical rows appended so far (data rows
plus the header row if one was written): every sheet but the last is
closed holding exactly `M` rows, the last is open holding at most `M`
rows (at least one unless it is the only sheet), and the archive holds
one worksheet entry per sheet. -/

def Inv (M P : Nat) (st : WriterState) : Prop :=
  st.started = true ∧ st.finished = false ∧ st.config.maxRowsPerSheet = M ∧
  ∃ pre lastS,
    st.sheetWriters = pre ++ [lastS] ∧
    st.currentSheetIndex = pre.length ∧
    (∀ x ∈ pre, x.rowCount = M ∧ x.closed = true) ∧
    lastS.closed = false ∧
    lastS.rowCount ≤ M ∧
    (pre = [] ∨ 1 ≤ lastS.rowCount) ∧
    M * pre.length + lastS.rowCount = P ∧
    wsEntryCount st = pre.length + 1

theorem writeRowAppend_concat (st : WriterState) (pre : List SheetRec) (lastS : SheetRec)
    (values : List Value)
    (hs : st.sheetWriters = pre ++ [lastS]) (hidx : st.currentSheetIndex = pre.length) :
    writeRowAppend allOk st values =
      (.ok (), { st with
        sheetWriters := pre ++ [{ lastS with
          content := lastS.content ++ [generateRow lastS.rowCount values ++ "\n"],
          rowCount := lastS.rowCount + 1 }],
        totalRows := st.totalRows + 1,
        ioIdx := st.ioIdx + 1 }) := by
  simp only [writeRowAppend, hs, hidx, get?_concat_self, ioAttempt, allOk, if_true,
    listModify_concat]

/-- The closed form of a worksheet record after rollover closes it. -/
def closedSheet (lastS : SheetRec) : SheetRec :=
  { lastS with content := lastS.content ++ [worksheetFooter], closed := true }

/-- A freshly opened worksheet record with the given zero-based index. -/
def freshSheet (idx : Nat) : SheetRec :=
  { content := [worksheetHeader ++ "\n"]
    rowCount := 0
    sheetIndex := idx
    headersDone := false
    closed := false }

/-- The writer state after `startNewSheet` succeeds on a state whose
sheets are `pre ++ [lastS]` with `lastS` still open. -/
def rollState (st : WriterState) (pre : List SheetRec) (lastS : SheetRec) : WriterState :=
  { st with
    sheetWriters := (pre ++ [closedSheet lastS]) ++ [freshSheet (pre.length + 1)]
    currentSheetIndex := pre.length + 1
    entries := st.entries ++ [(.worksheet (pre.length + 2), "")]
    ioIdx := st.ioIdx + 3 }

theorem startNewSheet_concat (st : WriterState) (pre : List SheetRec) (lastS : SheetRec)
    (hs : st.sheetWriters = pre ++ [lastS]) (hcl : lastS.closed = false) :
    startNewSheet allOk st = (.ok (), rollState st pre lastS) := by
  simp only [startNewSheet, hs, List.getLast?_concat, hcl, Bool.false_eq_true, if_false,
    ioAttempt, allOk, if_true, modifyLast_concat, writeZipFile, bindW, rollState,
    closedSheet, freshSheet]
  simp [List.length_append, Nat.add_sub_cancel]

theorem writeRow_step (M P : Nat) (st : WriterState) (values : List Value)
    (hM : 1 ≤ M) (h : Inv M P st) :
    ∃ st', writeRow allOk st values = (.ok (), st') ∧ Inv M (P + 1) st' ∧
      st'.totalRows = st.totalRows + 1 ∧
      st'.sheetWriters.length =
        st.sheetWriters.length + (if M ≤ lastRowCount st then 1 else 0) := by
  obtain ⟨hstart, hfin, hcfg, pre, lastS, hs, hidx, hpre, hcl, hle, hpos, hsum, hws⟩ := h
  have hget : st.sheetWriters.get? st.currentSheetIndex = some lastS := by
    rw [hs, hidx]; exact get?_concat_self _ _
  by_cases hroll : M ≤ lastS.rowCount
  · -- the sheet is full: rollover, then append to the fresh sheet
    have hEq : lastS.rowCount = M := le_antisymm hle hroll
    rw [writeRow, hstart, hfin]
    simp only [Bool.not_true, Bool.false_eq_true, if_false, hget, hcfg]
    rw [if_pos hroll, startNewSheet_concat st pre lastS hs hcl, bindW_ok]
    rw [writeRowAppend_concat (rollState st pre lastS) (pre ++ [closedSheet lastS])
      (freshSheet (pre.length + 1)) values rfl (by simp [rollState])]
    refine ⟨_, rfl, ?_, by simp [rollState], by
      have hlast : lastRowCount st = lastS.rowCount := by
        simp [lastRowCount, hs, List.getLast?_concat]
      simp [rollState, hs, hlast, hEq, hroll]⟩
    refine ⟨hstart, hfin, hcfg, pre ++ [closedSheet lastS], _, rfl, by simp [rollState],
      ?_, rfl, hM, Or.inr (le_refl 1), ?_, ?_⟩
    · intro x hx
      rcases List.mem_append.1 hx with hx' | hx'
      · exact hpre x hx'
      · rcases List.mem_singleton.1 hx' with rfl
        exact ⟨hEq, rfl⟩
    · rw [List.length_append, List.length_singleton, Nat.mul_succ]
      show M * pre.length + M + (0 + 1) = P + 1
      generalize hq : M * pre.length = q at hsum ⊢
      omega
    · simp only [wsEntryCount, rollState, List.countP_append] at hws ⊢
      simp [isWsEntry, hws, List.countP_cons]
  · -- the sheet still has room: append in place
    have hlt : lastS.rowCount < M := lt_of_not_le hroll
    rw [writeRow, hstart, hfin]
    simp only [Bool.not_true, Bool.false_eq_true, if_false, hget, hcfg]
    rw [if_neg hroll, writeRowAppend_concat st pre lastS values hs hidx]
    refine ⟨_, rfl, ?_, by simp, by
      have hlast : lastRowCount st = lastS.rowCount := by
        simp [lastRowCount, hs, List.getLast?_concat]
      simp [hs, hlast, hroll]⟩
    refine ⟨hstart, hfin, hcfg, pre, _, rfl, hidx, hpre, hcl,
      show lastS.rowCount + 1 ≤ M by omega,
      Or.inr (show 1 ≤ lastS.rowCount + 1 by omega), ?_, ?_⟩
    · show M * pre.length + (lastS.rowCount + 1) = P + 1
      generalize hq : M * pre.length = q at hsum ⊢
      omega
    · simpa [wsEntryCount] using hws

theorem writeRows_inv (M : Nat) (hM : 1 ≤ M) :
    ∀ (rows : List (List Value)) (P : Nat) (st : WriterState), Inv M P st →
      ∃ st', writeRows allOk st rows = (.ok (), st') ∧ Inv M (P + rows.length) st' ∧
        st'.totalRows = st.totalRows + rows.length := by
  intro rows
  induction rows with
  | nil => intro P st h; exact ⟨st, rfl, by simpa using h, by simp⟩
  | cons r rs ih =>
      intro P st h
      obtain ⟨st1, h1, hInv1, hRows1, _⟩ := writeRow_step M P st r hM h
      obtain ⟨st2, h2, hInv2, hRows2⟩ := ih (P + 1) st1 hInv1
      refine ⟨st2, ?_, ?_, ?_⟩
      · rw [writeRows, h1, bindW_ok, h2]
      · simpa [Nat.add_assoc, Nat.add_comm 1 rs.length] using hInv2
      · rw [hRows2, hRows1]; push_cast [List.length_cons]; ring

/-- The writer state right after a successful `StartFile` on a fresh
writer, before any header handling: the template entries written,
worksheet #1 open and empty. -/
def startedBase (cfg : Config) : WriterState :=
  { config := cfg
    started := true
    finished := false
    sheetWriters := [freshSheet 0]
    currentSheetIndex := 0
    totalRows := 0
    entries := [(.relsRels, relsXML), (.styles, stylesXML), (.worksheet 1, "")]
    ioIdx := 4 }

theorem startedBase_inv (cfg : Config) : Inv cfg.maxRowsPerSheet 0 (startedBase cfg) :=
  ⟨rfl, rfl, rfl, [], freshSheet 0, rfl, rfl, by simp, rfl, by simp [freshSheet],
    Or.inl rfl, by simp [freshSheet], rfl⟩

theorem startFile_none (cfg : Config) :
    startFile allOk (newWriter cfg) none = (.ok (), startedBase cfg) := rfl

theorem startFile_some (cfg : Config) (h : List Value) :
    startFile allOk (newWriter cfg) (some h) =
      if h.isEmpty then (.ok (), startedBase cfg)
      else
        bindW (writeRow allOk (startedBase cfg) h) (fun st4 =>
          let sheets :=
            listModify (fun sw => { sw with headersDone := true }) 0 st4.sheetWriters
          (.ok (), { st4 with sheetWriters := sheets,
                              totalRows := st4.totalRows - 1 })) := rfl

/-- The number of physical header rows a `StartFile` argument produces
(Go writes the header only when the variadic argument is present and
nonempty). -/
def headerRows : Option (List Value) → Nat
  | some h => if h.isEmpty then 0 else 1
  | none => 0

/-- `StartFile` on a fresh writer under the all-success oracle: it
succeeds, the state satisfies the invariant with `P = headerRows headers`
physical rows, and the header row is excluded from `totalRows`. -/
theorem startFile_inv (cfg : Config) (hM : 1 ≤ cfg.maxRowsPerSheet)
    (headers : Option (List Value)) :
    ∃ st', startFile allOk (newWriter cfg) headers = (.ok (), st') ∧
      Inv cfg.maxRowsPerSheet (headerRows headers) st' ∧ st'.totalRows = 0 := by
  match headers with
  | none =>
      exact ⟨startedBase cfg, startFile_none cfg, startedBase_inv cfg, rfl⟩
  | some h =>
      cases hh : h.isEmpty with
      | true =>
          refine ⟨startedBase cfg, ?_, ?_, rfl⟩
          · rw [startFile_some, hh, if_pos rfl]
          · simpa [headerRows, hh] using startedBase_inv cfg
      | false =>
          obtain ⟨st4, h4, hInv4, hRows4, _⟩ :=
            writeRow_step cfg.maxRowsPerSheet 0 (startedBase cfg) h hM (startedBase_inv cfg)
          obtain ⟨hstart4, hfin4, hcfg4, pre4, last4, hs4, hidx4, hpre4, hcl4, hle4, hpos4,
            hsum4, hws4⟩ := hInv4
          have hpre0 : pre4 = [] := by
            rcases pre4 with _ | ⟨x, xs⟩
            · rfl
            · exfalso
              rcases hpos4 with h' | h'
              · exact absurd h' (by simp)
              · have hge : cfg.maxRowsPerSheet ≤ cfg.maxRowsPerSheet * (x :: xs).length :=
                  Nat.le_mul_of_pos_right _ (by simp)
                generalize hq : cfg.maxRowsPerSheet * (x :: xs).length = q at hsum4 hge
                omega
          subst hpre0
          refine ⟨{ st4 with
              sheetWriters :=
                listModify (fun sw => { sw with headersDone := true }) 0 st4.sheetWriters
              totalRows := st4.totalRows - 1 }, ?_, ?_, ?_⟩
          · rw [startFile_some, hh]
            simp only [Bool.false_eq_true, if_false]
            rw [h4, bindW_ok]
          · refine ⟨hstart4, hfin4, hcfg4, [], { last4 with headersDone := true }, ?_,
              hidx4, by simp, hcl4, hle4, ?_, ?_, ?_⟩
            · rw [hs4]
              simp only [List.nil_append, listModify]
            · rcases hpos4 with h' | h'
              · exact Or.inl rfl
              · exact Or.inr h'
            · simp only [headerRows, hh, Bool.false_eq_true, if_false]
              simpa using hsum4
            · simpa [wsEntryCount] using hws4
          · show st4.totalRows - 1 = 0
            rw [hRows4]
            simp [startedBase]

/-- The writer state after `FinishFile` succeeds on an invariant state:
the last sheet closed with its footer, the three table-of-contents
entries appended, and six underlying writes consumed (footer, three
entries, zip close, sink close). -/
def finishedState (st : WriterState) (pre : List SheetRec) (lastS : SheetRec) : WriterState :=
  { st with
    finished := true
    sheetWriters := pre ++ [closedSheet lastS]
    entries :=
      st.entries ++
          [(.workbook,
            generateWorkbookXML (pre ++ [closedSheet lastS]).length st.config.sheetPfx)] ++
        [(.workbookRels, generateWorkbookRelsXML (pre ++ [closedSheet lastS]).length)] ++
        [(.contentTypes, generateContentTypesXML (pre ++ [closedSheet lastS]).length)]
    ioIdx := st.ioIdx + 1 + 1 + 1 + 1 + 1 + 1 }

theorem finishFile_concat (st : WriterState) (pre : List SheetRec) (lastS : SheetRec)
    (hstart : st.started = true) (hfin : st.finished = false)
    (hs : st.sheetWriters = pre ++ [lastS]) (hcl : lastS.closed = false) :
    finishFile allOk st =
      (.ok { totalRows := st.totalRows, totalSheets := pre.length + 1 },
        finishedState st pre lastS) := by
  rw [finishFile, hstart, hfin]
  simp only [Bool.not_true, Bool.false_eq_true, if_false, hs, List.getLast?_concat, hcl,
    ioAttempt, allOk, if_true, modifyLast_concat, writeZipFile, bindW, id_eq,
    finishedState, closedSheet]
  simp [List.length_append, hstart]

theorem sum_map_const (M : Nat) (l : List SheetRec) (h : ∀ x ∈ l, x.rowCount = M) :
    (l.map (fun s => s.rowCount)).sum = M * l.length := by
  induction l with
  | nil => simp
  | cons x xs ih =>
      have hx := h x (by simp)
      have hxs : ∀ y ∈ xs, y.rowCount = M := fun y hy => h y (by simp [hy])
      simp only [List.map_cons, List.sum_cons, ih hxs, hx, List.length_cons, Nat.mul_succ]
      omega

theorem sheets_count_div (M s r : Nat) (hM : 1 ≤ M) (hr : r ≤ M) (hpos : s = 0 ∨ 1 ≤ r) :
    s + 1 = max 1 ((M * s + r + M - 1) / M) := by
  rcases hpos with rfl | hr1
  · simp only [Nat.mul_zero, Nat.zero_add]
    rcases Nat.eq_zero_or_pos r with rfl | hr0
    · rw [Nat.div_eq_of_lt (by omega)]
      omega
    · have h1 : r + M - 1 = (r - 1) + M * 1 := by omega
      rw [h1, Nat.add_mul_div_left _ _ (show 0 < M by omega),
        Nat.div_eq_of_lt (by omega)]
      omega
  · have h1 : M * s + r + M - 1 = (r - 1) + M * (s + 1) := by
      rw [Nat.mul_succ]
      generalize M * s = q
      omega
    rw [h1, Nat.add_mul_div_left _ _ (show 0 < M by omega),
      Nat.div_eq_of_lt (by omega)]
    omega

/-- A successful full run characterized: for row ceiling `M ≥ 1`, any
optional header and any row list, the run succeeds; the statistics count
exactly the data rows and the final sheet count; the archive holds one
worksheet entry per sheet; the physical row counts over all sheets sum to
data rows plus header; and the number of sheets is
`max 1 (ceil((rows + header) / M))`. -/
theorem runWriter_ok (M : Nat) (hM : 1 ≤ M) (headers : Option (List Value))
    (rows : List (List Value)) :
    ∃ stats st', runWriter M headers rows = (.ok stats, st') ∧
      stats.totalRows = (rows.length : Int) ∧
      stats.totalSheets = st'.sheetWriters.length ∧
      wsEntryCount st' = st'.sheetWriters.length ∧
      (sheetCounts st').sum = rows.length + headerRows headers ∧
      st'.sheetWriters.length =
        max 1 ((rows.length + headerRows headers + M - 1) / M) := by
  have hMcfg : ({ defaultConfig with maxRowsPerSheet := M } : Config).maxRowsPerSheet = M := rfl
  obtain ⟨st1, h1, hInv1, hRows1⟩ :=
    startFile_inv { defaultConfig with maxRowsPerSheet := M } (by simpa [hMcfg] using hM)
      headers
  obtain ⟨st2, h2, hInv2, hRows2⟩ := writeRows_inv M hM rows (headerRows headers) st1
    (by simpa [hMcfg] using hInv1)
  obtain ⟨hstart2, hfin2, hcfg2, pre2, last2, hs2, hidx2, hpre2, hcl2, hle2, hpos2,
    hsum2, hws2⟩ := hInv2
  have hfin := finishFile_concat st2 pre2 last2 hstart2 hfin2 hs2 hcl2
  refine ⟨{ totalRows := st2.totalRows, totalSheets := pre2.length + 1 },
    finishedState st2 pre2 last2, ?_, ?_, ?_, ?_, ?_, ?_⟩
  · rw [runWriter, h1, bindW_ok, h2, bindW_ok, hfin]
  · show st2.totalRows = (rows.length : Int)
    rw [hRows2, hRows1]
    simp
  · show pre2.length + 1 = (finishedState st2 pre2 last2).sheetWriters.length
    simp [finishedState]
  · show wsEntryCount (finishedState st2 pre2 last2) = _
    have : wsEntryCount (finishedState st2 pre2 last2) = wsEntryCount st2 := by
      simp [wsEntryCount, finishedState, List.countP_append, isWsEntry]
    rw [this, hws2]
    simp [finishedState]
  · show (sheetCounts (finishedState st2 pre2 last2)).sum = _
    have hcounts : sheetCounts (finishedState st2 pre2 last2) =
        (pre2.map (fun s => s.rowCount)) ++ [last2.rowCount] := by
      simp [sheetCounts, finishedState, closedSheet]
    rw [hcounts]
    have hmap : (pre2.map (fun s => s.rowCount)).sum = M * pre2.length :=
      sum_map_const M pre2 (fun x hx => (hpre2 x hx).1)
    simp only [List.sum_append, List.sum_cons, List.sum_nil, hmap]
    have := hsum2
    generalize M * pre2.length = q at this ⊢
    omega
  · show (finishedState st2 pre2 last2).sheetWriters.length = _
    have hlen : (finishedState st2 pre2 last2).sheetWriters.length = pre2.length + 1 := by
      simp [finishedState]
    rw [hlen, Nat.add_comm rows.length (headerRows headers), ← hsum2]
    exact sheets_count_div M pre2.length last2.rowCount hM hle2
      (hpos2.imp (fun hp => by rw [hp]; rfl) id)

/-! ## State preservation under arbitrary oracles (for the finalization
claims): once `FinishFile` has set `finished`, no later step of the
finalization sequence resets `started` or `finished`, whichever
underlying writes fail. -/

theorem bindW_pres {α : Type} (Q : WriterState → Prop)
    (x : Except WriterErr Unit × WriterState)
    (f : WriterState → Except WriterErr α × WriterState)
    (hx : Q x.2) (hf : ∀ s, Q s → Q (f s).2) : Q (bindW x f).2 := by
  rcases x with ⟨r, s⟩
  cases r with
  | error e => exact hx
  | ok a => exact hf s hx

theorem ioAttempt_sf (oracle : Nat → Bool) (st : WriterState) (msg : String)
    (f : WriterState → WriterState)
    (hf : ∀ s, (f s).started = s.started ∧ (f s).finished = s.finished) :
    (ioAttempt oracle st msg f).2.started = st.started ∧
      (ioAttempt oracle st msg f).2.finished = st.finished := by
  unfold ioAttempt
  split
  · refine ⟨?_, ?_⟩
    · rw [(hf _).1]
    · rw [(hf _).2]
  · exact ⟨rfl, rfl⟩

theorem finishFile_sf (oracle : Nat → Bool) (st : WriterState)
    (hstart : st.started = true) (hfin : st.finished = false) :
    (finishFile oracle st).2.started = true ∧ (finishFile oracle st).2.finished = true := by
  rw [finishFile, hstart, hfin]
  simp only [Bool.not_true, Bool.false_eq_true, if_false]
  have hsf : ∀ (s : WriterState), s.started = true ∧ s.finished = true →
      ∀ (msg : String) (f : WriterState → WriterState),
        (∀ u, (f u).started = u.started ∧ (f u).finished = u.finished) →
        (ioAttempt oracle s msg f).2.started = true ∧
          (ioAttempt oracle s msg f).2.finished = true := by
    intro s hs msg f hf
    have := ioAttempt_sf oracle s msg f hf
    exact ⟨this.1.trans hs.1, this.2.trans hs.2⟩
  apply bindW_pres (fun s => s.started = true ∧ s.finished = true)
  · -- the close-last-sheet step from the already-finished state
    cases hgl : ({ st with finished := true } : WriterState).sheetWriters.getLast? with
    | none => simp [hgl, hstart]
    | some lastS =>
        simp only [hgl]
        split
        · exact ⟨rfl, rfl⟩
        · exact hsf _ ⟨rfl, rfl⟩ _ _ (fun u => ⟨rfl, rfl⟩)
  · intro s1 h1
    refine bindW_pres (fun s => s.started = true ∧ s.finished = true) _ _ ?_ ?_
    · exact hsf s1 h1 _ _ (fun u => ⟨rfl, rfl⟩)
    intro s2 h2
    refine bindW_pres (fun s => s.started = true ∧ s.finished = true) _ _ ?_ ?_
    · exact hsf s2 h2 _ _ (fun u => ⟨rfl, rfl⟩)
    intro s3 h3
    refine bindW_pres (fun s => s.started = true ∧ s.finished = true) _ _ ?_ ?_
    · exact hsf s3 h3 _ _ (fun u => ⟨rfl, rfl⟩)
    intro s4 h4
    refine bindW_pres (fun s => s.started = true ∧ s.finished = true) _ _ ?_ ?_
    · exact hsf s4 h4 _ _ (fun u => ⟨rfl, rfl⟩)
    intro s5 h5
    refine bindW_pres (fun s => s.started = true ∧ s.finished = true) _ _ ?_ ?_
    · exact hsf s5 h5 _ _ (fun u => ⟨rfl, rfl⟩)
    intro s6 h6
    exact h6

/-! ## Chunked-sink invariants -/

/-- A client whose part uploads always succeed, acknowledging part `n`
with tag `f n`, and whose session completion succeeds. -/
def okClient (f : Nat → String) : S3Client :=
  { uploadPartETag := fun n => some (f n), completeOk := true }

/-- The dense-part invariant: the next part number is at least 1 and the
acknowledged parts are exactly parts `1, ..., partNumber - 1` in order,
each carrying its acknowledgment tag. -/
def S3Inv (f : Nat → String) (st : S3SinkState) : Prop :=
  1 ≤ st.partNumber ∧
  st.completedParts = (List.range' 1 (st.partNumber - 1)).map (fun n => ⟨f n, n⟩)

theorem initS3_inv (f : Nat → String) (partSize : Nat) : S3Inv f (initS3 partSize) :=
  ⟨le_refl 1, rfl⟩

theorem uploadPart_inv (f : Nat → String) (st : S3SinkState) (h : S3Inv f st) :
    ∃ st' evs, uploadPart (okClient f) st = (.ok (), st', evs) ∧ S3Inv f st' ∧
      st'.buffer = 0 ∧ st'.completedParts.length = st'.partNumber - 1 := by
  obtain ⟨hpn, hparts⟩ := h
  rcases Nat.eq_zero_or_pos st.buffer with hb | hb
  · refine ⟨st, [], ?_, ⟨hpn, hparts⟩, hb, ?_⟩
    · rw [uploadPart, if_pos hb]
    · rw [hparts]
      simp
  · refine ⟨{ st with
        buffer := 0
        partNumber := st.partNumber + 1
        completedParts := st.completedParts ++ [⟨f st.partNumber, st.partNumber⟩] },
      [.uploadPartCall st.partNumber st.buffer], ?_, ?_, rfl, ?_⟩
    · rw [uploadPart, if_neg (by omega)]
      rfl
    · refine ⟨show 1 ≤ st.partNumber + 1 by omega, ?_⟩
      show st.completedParts ++ [⟨f st.partNumber, st.partNumber⟩] =
        (List.range' 1 (st.partNumber + 1 - 1)).map (fun n => ⟨f n, n⟩)
      rw [hparts, Nat.add_sub_cancel]
      have key : ((List.range' 1 (st.partNumber - 1)).map
            (fun n => (⟨f n, n⟩ : CompletedPart))) ++
          [⟨f (st.partNumber - 1 + 1), st.partNumber - 1 + 1⟩] =
          (List.range' 1 (st.partNumber - 1 + 1)).map (fun n => ⟨f n, n⟩) := by
        rw [List.range'_concat]
        simp [Nat.one_mul, Nat.add_comm]
      rw [Nat.sub_add_cancel hpn] at key
      exact key
    · simp only [List.length_append, List.length_cons, List.length_nil]
      rw [hparts]
      simp [List.length_range']
      omega

theorem s3Write_inv (f : Nat → String) (st : S3SinkState) (n : Nat) (h : S3Inv f st) :
    ∃ st' evs, s3Write (okClient f) st n = (.ok (), st', evs) ∧ S3Inv f st' ∧
      st'.partSize = st.partSize ∧ st'.totalBytes = st.totalBytes + n := by
  obtain ⟨hpn, hparts⟩ := h
  rw [s3Write]
  set st1 : S3SinkState :=
    { st with buffer := st.buffer + n, totalBytes := st.totalBytes + n } with hst1
  by_cases hfull : st1.buffer ≥ st1.partSize
  · rw [if_pos hfull]
    obtain ⟨st', evs, hup, hinv', hbuf', hlen'⟩ :=
      uploadPart_inv f st1 ⟨hpn, hparts⟩
    refine ⟨st', evs, ?_, hinv', ?_, ?_⟩
    · rw [hup]
    · -- uploadPart only resets the buffer and extends the parts
      rcases Nat.eq_zero_or_pos st1.buffer with hb | hb
      · rw [uploadPart, if_pos hb] at hup
        cases hup
        rfl
      · rw [uploadPart, if_neg (by omega)] at hup
        simp only [okClient] at hup
        cases hup
        rfl
    · rcases Nat.eq_zero_or_pos st1.buffer with hb | hb
      · rw [uploadPart, if_pos hb] at hup
        cases hup
        rfl
      · rw [uploadPart, if_neg (by omega)] at hup
        simp only [okClient] at hup
        cases hup
        rfl
  · rw [if_neg hfull]
    exact ⟨st1, [], rfl, ⟨hpn, hparts⟩, rfl, rfl⟩

theorem s3WriteAll_inv (f : Nat → String) :
    ∀ (ws : List Nat) (st : S3SinkState), S3Inv f st →
      ∃ st' evs, s3WriteAll (okClient f) st ws = (.ok (), st', evs) ∧ S3Inv f st' := by
  intro ws
  induction ws with
  | nil => intro st h; exact ⟨st, [], rfl, h⟩
  | cons w ws ih =>
      intro st h
      obtain ⟨st1, evs1, h1, hinv1, _, _⟩ := s3Write_inv f st w h
      obtain ⟨st2, evs2, h2, hinv2⟩ := ih st1 hinv1
      refine ⟨st2, evs1 ++ evs2, ?_, hinv2⟩
      rw [s3WriteAll]
      simp only [h1, h2]

theorem s3Close_inv (f : Nat → String) (st : S3SinkState) (h : S3Inv f st) :
    ∃ st' evs, s3Close (okClient f) st = (.ok (), st', evs ++ [.completeCall st'.completedParts]) ∧
      S3Inv f st' := by
  obtain ⟨hpn, hparts⟩ := h
  rw [s3Close]
  by_cases hb : st.buffer > 0
  · rw [if_pos hb]
    obtain ⟨st', evs, hup, hinv', _, _⟩ := uploadPart_inv f st ⟨hpn, hparts⟩
    rw [hup]
    exact ⟨st', evs, rfl, hinv'⟩
  · rw [if_neg hb]
    exact ⟨st, [], rfl, ⟨hpn, hparts⟩⟩

/-- `Close` when the completion call fails but the final-part upload (if
any is needed) succeeds: the sink aborts the session right after the
failed completion and surfaces the failure. -/
theorem s3Close_completeFail (c : S3Client) (st : S3SinkState)
    (hc : c.completeOk = false)
    (h : st.buffer = 0 ∨ ∃ tag, c.uploadPartETag st.partNumber = some tag) :
    ∃ st1 evs, s3Close c st =
      (.error "failed to complete multipart upload", st1,
        evs ++ [.completeCall st1.completedParts, .abortCall]) := by
  rw [s3Close]
  by_cases hb : st.buffer > 0
  · rcases h with hb0 | ⟨tag, htag⟩
    · omega
    · rw [if_pos hb, uploadPart, if_neg (by omega), htag]
      refine ⟨{ st with
          buffer := 0
          partNumber := st.partNumber + 1
          completedParts := st.completedParts ++ [⟨tag, st.partNumber⟩] },
        [.uploadPartCall st.partNumber st.buffer], ?_⟩
      simp [hc]
  · rw [if_neg hb]
    refine ⟨st, [], ?_⟩
    simp [hc]

/-! ## Column-letter encoding lemmas -/

theorem str_append_empty : ∀ s : String, s ++ "" = s
  | ⟨l⟩ => congrArg String.mk (List.append_nil l)

theorem str_empty_append : ∀ s : String, "" ++ s = s
  | ⟨_⟩ => rfl

theorem str_append_assoc : ∀ a b c : String, a ++ b ++ c = a ++ (b ++ c)
  | ⟨x⟩, ⟨y⟩, ⟨z⟩ => congrArg String.mk (List.append_assoc x y z)

theorem columnLoop_append (n : Nat) : ∀ acc, columnLoop n acc = columnLoop n "" ++ acc := by
  induction n using Nat.strong_induction_on with
  | _ n ih =>
      match n with
      | 0 => intro acc; rw [columnLoop, columnLoop, str_empty_append]
      | m + 1 =>
          intro acc
          rw [columnLoop]
          rw [ih (m / 26) (Nat.lt_succ_of_le (Nat.div_le_self m 26))
            ((Char.ofNat (65 + m % 26)).toString ++ acc)]
          conv_rhs =>
            rw [columnLoop, ih (m / 26) (Nat.lt_succ_of_le (Nat.div_le_self m 26))
              ((Char.ofNat (65 + m % 26)).toString ++ "")]
          rw [str_append_assoc]
          rw [show ((Char.ofNat (65 + m % 26)).toString ++ "") =
            (Char.ofNat (65 + m % 26)).toString from str_append_empty _]

/-- The bijective base-26 recurrence of `columnName`: for a zero-based
column index of at least 26, the letters are those of `col / 26 - 1`
followed by the letter for `col % 26`. -/
theorem columnName_rec (col : Nat) (h : 26 ≤ col) :
    columnName col = columnName (col / 26 - 1) ++ (Char.ofNat (65 + col % 26)).toString := by
  have hdiv : 1 ≤ col / 26 := (Nat.le_div_iff_mul_le (by omega)).2 (by omega)
  rw [columnName, columnName, columnLoop,
    columnLoop_append (col / 26) ((Char.ofNat (65 + col % 26)).toString ++ ""),
    str_append_empty, Nat.sub_add_cancel hdiv]

/-- Below 26 the name is the single letter for the index. -/
theorem columnName_single (col : Nat) (h : col < 26) :
    columnName col = (Char.ofNat (65 + col)).toString := by
  rw [columnName, columnLoop, Nat.div_eq_of_lt h, Nat.mod_eq_of_lt h, columnLoop,
    str_append_empty]

/-! ## Row-content lemmas: the row index passed to the encoder is the
worksheet-local counter. -/

/-- Appending a row without rollover: the open sheet receives
`generateRow` at its own local `rowCount`. -/
theorem writeRow_inplace_content (M : Nat) (st : WriterState) (pre : List SheetRec)
    (lastS : SheetRec) (values : List Value)
    (hstart : st.started = true) (hfin : st.finished = false)
    (hcfg : st.config.maxRowsPerSheet = M)
    (hs : st.sheetWriters = pre ++ [lastS]) (hidx : st.currentSheetIndex = pre.length)
    (hlt : lastS.rowCount < M) :
    (writeRow allOk st values).2.sheetWriters.getLast? =
      some { lastS with
        content := lastS.content ++ [generateRow lastS.rowCount values ++ "\n"]
        rowCount := lastS.rowCount + 1 } := by
  have hget : st.sheetWriters.get? st.currentSheetIndex = some lastS := by
    rw [hs, hidx]; exact get?_concat_self _ _
  rw [writeRow, hstart, hfin]
  simp only [Bool.not_true, Bool.false_eq_true, if_false, hget, hcfg]
  rw [if_neg (by omega), writeRowAppend_concat st pre lastS values hs hidx]
  simp [List.getLast?_concat]

/-- Appending a row at the ceiling: rollover opens a fresh sheet and the
row lands there with local index 0, i.e. its `r` attribute restarts at 1. -/
theorem writeRow_roll_content (M : Nat) (st : WriterState) (pre : List SheetRec)
    (lastS : SheetRec) (values : List Value)
    (hstart : st.started = true) (hfin : st.finished = false)
    (hcfg : st.config.maxRowsPerSheet = M)
    (hs : st.sheetWriters = pre ++ [lastS]) (hidx : st.currentSheetIndex = pre.length)
    (hcl : lastS.closed = false) (hEq : lastS.rowCount = M) :
    (writeRow allOk st values).2.sheetWriters.getLast? =
      some { content := [worksheetHeader ++ "\n", generateRow 0 values ++ "\n"]
             rowCount := 1
             sheetIndex := pre.length + 1
             headersDone := false
             closed := false } := by
  have hget : st.sheetWriters.get? st.currentSheetIndex = some lastS := by
    rw [hs, hidx]; exact get?_concat_self _ _
  rw [writeRow, hstart, hfin]
  simp only [Bool.not_true, Bool.false_eq_true, if_false, hget, hcfg]
  rw [if_pos (by omega), startNewSheet_concat st pre lastS hs hcl, bindW_ok]
  rw [writeRowAppend_concat (rollState st pre lastS) (pre ++ [closedSheet lastS])
    (freshSheet (pre.length + 1)) values rfl (by simp [rollState])]
  simp [List.getLast?_concat, freshSheet]

/-! ## Claims -/

/-- One mebibyte. -/
def oneMiB : Nat := 1024 * 1024

/-- The acknowledgment tag the test client returns for part `n`. -/
def tagOf (n : Nat) : String := "etag-" ++ toString n

/-- C1 counterexample: with a header row, a ceiling of 10 and exactly 10
data rows, the archive holds 2 worksheet entries — not
`ceil(N_effective / ceiling) = ceil(10/10) = 1` — and the per-worksheet
row counts sum to 11 (the header is a physical row), not `N_effective = 10`. -/
theorem c1_roundtrip_counterexample :
    (runWriter 10 (some [Value.str "h"]) (List.replicate 10 [])).1 =
      .ok { totalRows := 10, totalSheets := 2 } ∧
    wsEntryCount (runWriter 10 (some [Value.str "h"]) (List.replicate 10 [])).2 = 2 ∧
    (sheetCounts (runWriter 10 (some [Value.str "h"]) (List.replicate 10 [])).2).sum = 11 ∧
    (10 + 10 - 1) / 10 = 1 ∧ 2 ≠ 1 ∧ 11 ≠ 10 :=
  ⟨rfl, by decide, by decide, by decide, by decide, by decide⟩

/-- C1 (amended): for any row ceiling `M ≥ 1`, optional header and row
sequence, the run succeeds and the archive holds exactly
`max 1 (ceil((N + H) / M))` worksheet entries, where `N` is the data-row
count and `H` is 1 when a nonempty header was supplied; the per-worksheet
physical row counts sum to `N + H`; the statistics report `N` data rows
and the worksheet-entry count as the sheet total. -/
theorem c1_roundtrip_amended (M : Nat) (hM : 1 ≤ M) (headers : Option (List Value))
    (rows : List (List Value)) :
    ∃ stats st', runWriter M headers rows = (.ok stats, st') ∧
      stats.totalRows = (rows.length : Int) ∧
      stats.totalSheets = st'.sheetWriters.length ∧
      wsEntryCount st' = st'.sheetWriters.length ∧
      (sheetCounts st').sum = rows.length + headerRows headers ∧
      st'.sheetWriters.length =
        max 1 ((rows.length + headerRows headers + M - 1) / M) :=
  runWriter_ok M hM headers rows

/-- Witness for C1 (amended) at `M = 10`, a 1-column header and 12 data
rows. -/
theorem c1_roundtrip_witness :
    1 ≤ 10 ∧
    (∃ stats st',
      runWriter 10 (some [Value.str "h"]) (List.replicate 12 []) = (.ok stats, st') ∧
      stats.totalRows = ((List.replicate 12 ([] : List Value)).length : Int) ∧
      stats.totalSheets = st'.sheetWriters.length ∧
      wsEntryCount st' = st'.sheetWriters.length ∧
      (sheetCounts st').sum =
        (List.replicate 12 ([] : List Value)).length +
          headerRows (some [Value.str "h"]) ∧
      st'.sheetWriters.length =
        max 1 (((List.replicate 12 ([] : List Value)).length +
          headerRows (some [Value.str "h"]) + 10 - 1) / 10)) :=
  ⟨by decide, c1_roundtrip_amended 10 (by decide) (some [Value.str "h"])
    (List.replicate 12 [])⟩

/-- C2: with no header and ceiling 10, writing 10 rows yields 1 worksheet
of 10 rows, 11 rows yield counts [10, 1], 25 rows yield [10, 10, 5]; and
in general (on any reachable writer state) a row written while the open
sheet is below the ceiling stays on that sheet, while a row written when
the open sheet holds exactly the ceiling opens a new sheet — rollover is
checked strictly before appending, never after. -/
theorem c2_rollover_boundary :
    ((runWriter 10 none (List.replicate 10 [])).1 =
        .ok { totalRows := 10, totalSheets := 1 } ∧
      sheetCounts (runWriter 10 none (List.replicate 10 [])).2 = [10]) ∧
    ((runWriter 10 none (List.replicate 11 [])).1 =
        .ok { totalRows := 11, totalSheets := 2 } ∧
      sheetCounts (runWriter 10 none (List.replicate 11 [])).2 = [10, 1]) ∧
    ((runWriter 10 none (List.replicate 25 [])).1 =
        .ok { totalRows := 25, totalSheets := 3 } ∧
      sheetCounts (runWriter 10 none (List.replicate 25 [])).2 = [10, 10, 5]) ∧
    (∀ (M P : Nat) (st : WriterState) (values : List Value), 1 ≤ M → Inv M P st →
      (lastRowCount st < M →
        (writeRow allOk st values).2.sheetWriters.length = st.sheetWriters.length) ∧
      (lastRowCount st = M →
        (writeRow allOk st values).2.sheetWriters.length = st.sheetWriters.length + 1)) := by
  refine ⟨⟨rfl, by decide⟩, ⟨rfl, by decide⟩, ⟨rfl, by decide⟩, ?_⟩
  intro M P st values hM hInv
  obtain ⟨st', hw, _, _, hlen⟩ := writeRow_step M P st values hM hInv
  rw [hw]
  constructor
  · intro hlt
    rw [hlen, if_neg (by omega)]
    omega
  · intro hEq
    rw [hlen, if_pos (by omega)]

/-- Witness for C2's general rollover clause on the state right after
`StartFile` (open sheet holding 0 of 10 rows). -/
theorem c2_rollover_witness :
    (1 ≤ 10 ∧ Inv 10 0 (startedBase { defaultConfig with maxRowsPerSheet := 10 })) ∧
    ((lastRowCount (startedBase { defaultConfig with maxRowsPerSheet := 10 }) < 10 →
      (writeRow allOk (startedBase { defaultConfig with maxRowsPerSheet := 10 })
          []).2.sheetWriters.length =
        (startedBase { defaultConfig with maxRowsPerSheet := 10 }).sheetWriters.length) ∧
    (lastRowCount (startedBase { defaultConfig with maxRowsPerSheet := 10 }) = 10 →
      (writeRow allOk (startedBase { defaultConfig with maxRowsPerSheet := 10 })
          []).2.sheetWriters.length =
        (startedBase { defaultConfig with maxRowsPerSheet := 10 }).sheetWriters.length + 1)) :=
  ⟨⟨by decide, startedBase_inv _⟩,
    c2_rollover_boundary.2.2.2 10 0 (startedBase { defaultConfig with maxRowsPerSheet := 10 })
      [] (by decide) (startedBase_inv _)⟩

/-- C3 counterexample: the claim fixes only the byte total, but part
accounting depends on write granularity — a single `Write` of 12 MiB
through a 5 MiB-part sink transmits one 12 MiB part before finalize (the
buffer is uploaded whole, not sliced), and finalize adds none, so there
are 1 part and not 3, contradicting "2 completed parts before finalize
and a 3rd at finalize". -/
theorem c3_chunking_counterexample :
    (s3WriteAll (okClient tagOf) (initS3 (5 * oneMiB)) [12 * oneMiB]).2.2 =
      [.uploadPartCall 1 (12 * oneMiB)] ∧
    (s3Close (okClient tagOf)
        (s3WriteAll (okClient tagOf) (initS3 (5 * oneMiB)) [12 * oneMiB]).2.1).2.2 =
      [.completeCall [{ eTag := tagOf 1, partNumber := 1 }]] ∧
    partCount (s3Close (okClient tagOf)
        (s3WriteAll (okClient tagOf) (initS3 (5 * oneMiB)) [12 * oneMiB]).2.1).2.1 = 1 ∧
    (1 : Nat) ≠ 3 :=
  ⟨by decide, by decide, by decide, by decide⟩

/-- C3 (amended): writing exactly 12 MiB as twelve 1 MiB `Write` calls
through a sink with a 5 MiB part size transmits 2 completed 5 MiB parts
before finalize; finalize transmits a 3rd part of 2 MiB (≤ 5 MiB) and
completes with parts numbered 1..3 in order; the three part byte-lengths
sum to exactly 12 MiB. -/
theorem c3_chunking_amended :
    (s3WriteAll (okClient tagOf) (initS3 (5 * oneMiB)) (List.replicate 12 oneMiB)).1 =
      .ok () ∧
    (s3WriteAll (okClient tagOf) (initS3 (5 * oneMiB)) (List.replicate 12 oneMiB)).2.2 =
      [.uploadPartCall 1 (5 * oneMiB), .uploadPartCall 2 (5 * oneMiB)] ∧
    (s3Close (okClient tagOf)
        (s3WriteAll (okClient tagOf) (initS3 (5 * oneMiB))
          (List.replicate 12 oneMiB)).2.1).2.2 =
      [.uploadPartCall 3 (2 * oneMiB),
        .completeCall [{ eTag := tagOf 1, partNumber := 1 },
          { eTag := tagOf 2, partNumber := 2 },
          { eTag := tagOf 3, partNumber := 3 }]] ∧
    2 * oneMiB ≤ 5 * oneMiB ∧
    5 * oneMiB + 5 * oneMiB + 2 * oneMiB = 12 * oneMiB ∧
    (s3Close (okClient tagOf)
        (s3WriteAll (okClient tagOf) (initS3 (5 * oneMiB))
          (List.replicate 12 oneMiB)).2.1).2.1.totalBytes = 12 * oneMiB ∧
    partCount (s3Close (okClient tagOf)
        (s3WriteAll (okClient tagOf) (initS3 (5 * oneMiB))
          (List.replicate 12 oneMiB)).2.1).2.1 = 3 :=
  ⟨rfl, by decide, by decide, by decide, by decide, by decide, by decide⟩

/-- A client whose part transfers fail. -/
def failUploadClient : S3Client :=
  { uploadPartETag := fun _ => none, completeOk := true }

/-- A client whose part transfers succeed but whose session completion
fails. -/
def failCompleteClient : S3Client :=
  { uploadPartETag := fun _ => some "e", completeOk := false }

/-- A sink with 100 bytes still buffered. -/
def pendingSink : S3SinkState :=
  { partSize := 5 * oneMiB, buffer := 100, partNumber := 1, completedParts := [],
    totalBytes := 100 }

/-- C4 counterexample: when the final-part upload (an underlying transfer
call) fails during `Close`, the failure is returned without invoking
abort — no `abortCall` appears in the trace. -/
theorem c4_abort_counterexample :
    s3Close failUploadClient pendingSink =
      (.error "failed to upload final part: upload part failed", pendingSink,
        [.uploadPartCall 1 100]) ∧
    S3Event.abortCall ∉ [S3Event.uploadPartCall 1 100] :=
  ⟨rfl, by decide⟩

/-- C4 (amended): if the session-completion call fails during `Close`
(and the final-part upload, when one is needed, succeeds), the sink
invokes abort right after the failed completion and before returning the
failure; a failed final-part upload instead surfaces without abort. -/
theorem c4_abort_on_complete_failure (c : S3Client) (st : S3SinkState)
    (hc : c.completeOk = false)
    (h : st.buffer = 0 ∨ ∃ tag, c.uploadPartETag st.partNumber = some tag) :
    ∃ st1 evs, s3Close c st =
      (.error "failed to complete multipart upload", st1,
        evs ++ [.completeCall st1.completedParts, .abortCall]) :=
  s3Close_completeFail c st hc h

/-- Witness for C4 (amended) on a fresh sink with a completion-failing
client. -/
theorem c4_abort_witness :
    (failCompleteClient.completeOk = false ∧
      ((initS3 (5 * oneMiB)).buffer = 0 ∨
        ∃ tag, failCompleteClient.uploadPartETag (initS3 (5 * oneMiB)).partNumber =
          some tag)) ∧
    (∃ st1 evs, s3Close failCompleteClient (initS3 (5 * oneMiB)) =
      (.error "failed to complete multipart upload", st1,
        evs ++ [.completeCall st1.completedParts, .abortCall])) :=
  ⟨⟨rfl, Or.inl rfl⟩,
    c4_abort_on_complete_failure failCompleteClient (initS3 (5 * oneMiB)) rfl (Or.inl rfl)⟩

/-- C5: each lifecycle violation — `WriteRow` before start, `StartFile`
twice, `FinishFile` before start, `FinishFile` after finish, `WriteRow`
after finish — returns the corresponding error with the writer state
returned exactly unchanged (so no underlying write was attempted and
there are no side effects), for every oracle. -/
theorem c5_lifecycle :
    (∀ (oracle : Nat → Bool) (st : WriterState) (values : List Value),
      st.started = false → writeRow oracle st values = (.error .notStarted, st)) ∧
    (∀ (oracle : Nat → Bool) (st : WriterState) (headers : Option (List Value)),
      st.started = true → startFile oracle st headers = (.error .alreadyStarted, st)) ∧
    (∀ (oracle : Nat → Bool) (st : WriterState),
      st.started = false → finishFile oracle st = (.error .notStarted, st)) ∧
    (∀ (oracle : Nat → Bool) (st : WriterState),
      st.started = true → st.finished = true →
      finishFile oracle st = (.error .alreadyFinished, st)) ∧
    (∀ (oracle : Nat → Bool) (st : WriterState) (values : List Value),
      st.started = true → st.finished = true →
      writeRow oracle st values = (.error .alreadyFinished, st)) := by
  refine ⟨?_, ?_, ?_, ?_, ?_⟩
  · intro oracle st values h
    rw [writeRow, h]
    rfl
  · intro oracle st headers h
    rw [startFile, h]
    rfl
  · intro oracle st h
    rw [finishFile, h]
    rfl
  · intro oracle st h1 h2
    rw [finishFile, h1, h2]
    rfl
  · intro oracle st values h1 h2
    rw [writeRow, h1, h2]
    rfl

/-- A writer that has been started and successfully finished. -/
def doneState : WriterState :=
  { startedBase defaultConfig with finished := true }

/-- Witness for C5 at concrete states: a fresh writer (not started), a
started writer, and a finished writer. -/
theorem c5_lifecycle_witness :
    ((newWriter defaultConfig).started = false ∧
      writeRow allOk (newWriter defaultConfig) [] =
        (.error .notStarted, newWriter defaultConfig)) ∧
    ((startedBase defaultConfig).started = true ∧
      startFile allOk (startedBase defaultConfig) none =
        (.error .alreadyStarted, startedBase defaultConfig)) ∧
    ((newWriter defaultConfig).started = false ∧
      finishFile allOk (newWriter defaultConfig) = (.error .notStarted, newWriter defaultConfig)) ∧
    (doneState.started = true ∧ doneState.finished = true ∧
      finishFile allOk doneState = (.error .alreadyFinished, doneState)) ∧
    (doneState.started = true ∧ doneState.finished = true ∧
      writeRow allOk doneState [] = (.error .alreadyFinished, doneState)) :=
  ⟨⟨rfl, c5_lifecycle.1 allOk (newWriter defaultConfig) [] rfl⟩,
    ⟨rfl, c5_lifecycle.2.1 allOk (startedBase defaultConfig) none rfl⟩,
    ⟨rfl, c5_lifecycle.2.2.1 allOk (newWriter defaultConfig) rfl⟩,
    ⟨rfl, rfl, c5_lifecycle.2.2.2.1 allOk doneState rfl rfl⟩,
    ⟨rfl, rfl, c5_lifecycle.2.2.2.2 allOk doneState [] rfl rfl⟩⟩

/-- C6: starting the file with a 3-column header and writing 5 data rows
under the default configuration yields `Statistics.TotalRows = 5` (not 6)
while the single worksheet's physical row count is 6 — the header is
appended as the first worksheet row but excluded from the statistic. -/
theorem c6_header_exclusion :
    (runWriter 1048576 (some [Value.str "Name", Value.str "Age", Value.str "Email"])
        (List.replicate 5 [Value.str "x"])).1 =
      .ok { totalRows := 5, totalSheets := 1 } ∧
    sheetCounts (runWriter 1048576 (some [Value.str "Name", Value.str "Age", Value.str "Email"])
        (List.replicate 5 [Value.str "x"])).2 = [6] :=
  ⟨rfl, by decide⟩

/-- C7: the encoder is total over the embedded value type and each value
kind maps to exactly one branch — text values to the escaped inline-string
markup, every integer width to the plain numeric markup, floating-point
values to the same numeric markup with their rendering, booleans to the
`t="b"` markup with literal 0/1, `nil` to the address-only placeholder —
and a value of unrecognized type is encoded exactly as the text encoding
of its rendering, so the encoder has no failure path. -/
theorem c7_encoder_totality :
    (∀ ref s, cellXML ref (.str s) = inlineStrCell ref (escapeXML s)) ∧
    (∀ ref i, cellXML ref (.intV i) = numCell ref (toString i)) ∧
    (∀ ref r, cellXML ref (.float r) = numCell ref r) ∧
    (∀ ref b, cellXML ref (.boolV b) = boolCell ref b) ∧
    (∀ ref, cellXML ref .empty = emptyCell ref) ∧
    (∀ ref r, cellXML ref (.other r) = cellXML ref (.str r)) :=
  ⟨fun _ _ => rfl, fun _ _ => rfl, fun _ _ => rfl, fun _ _ => rfl, fun _ => rfl,
    fun _ _ => rfl⟩

/-- C8: column letters come from the zero-based position in bijective
base-26 (0 → A, 25 → Z, 26 → AA, ..., with the general single-letter and
recurrence laws), and row numbers are worksheet-local: a row appended
below the ceiling carries the open sheet's own `rowCount` (printed
1-based), and the row that triggers rollover lands in the fresh sheet
with local index 0, i.e. its `r` attribute restarts at 1. -/
theorem c8_cell_addressing :
    (columnName 0 = "A" ∧ columnName 25 = "Z" ∧ columnName 26 = "AA" ∧
      columnName 51 = "AZ" ∧ columnName 52 = "BA" ∧ columnName 701 = "ZZ" ∧
      columnName 702 = "AAA") ∧
    (∀ col, col < 26 → columnName col = (Char.ofNat (65 + col)).toString) ∧
    (∀ col, 26 ≤ col →
      columnName col = columnName (col / 26 - 1) ++ (Char.ofNat (65 + col % 26)).toString) ∧
    (∀ row col, cellReference row col = columnName col ++ toString (row + 1)) ∧
    (∀ (M : Nat) (st : WriterState) (pre : List SheetRec) (lastS : SheetRec)
      (values : List Value), st.started = true → st.finished = false →
      st.config.maxRowsPerSheet = M → st.sheetWriters = pre ++ [lastS] →
      st.currentSheetIndex = pre.length → lastS.rowCount < M →
      (writeRow allOk st values).2.sheetWriters.getLast? =
        some { lastS with
          content := lastS.content ++ [generateRow lastS.rowCount values ++ "\n"]
          rowCount := lastS.rowCount + 1 }) ∧
    (∀ (M : Nat) (st : WriterState) (pre : List SheetRec) (lastS : SheetRec)
      (values : List Value), st.started = true → st.finished = false →
      st.config.maxRowsPerSheet = M → st.sheetWriters = pre ++ [lastS] →
      st.currentSheetIndex = pre.length → lastS.closed = false → lastS.rowCount = M →
      (writeRow allOk st values).2.sheetWriters.getLast? =
        some { content := [worksheetHeader ++ "\n", generateRow 0 values ++ "\n"]
               rowCount := 1
               sheetIndex := pre.length + 1
               headersDone := false
               closed := false }) := by
  have h0 : columnName 0 = "A" := by
    rw [columnName_single 0 (by norm_num)]; decide
  have h25 : columnName 25 = "Z" := by
    rw [columnName_single 25 (by norm_num)]; decide
  have h26 : columnName 26 = "AA" := by
    rw [columnName_rec 26 (by norm_num)]
    norm_num
    rw [columnName_single 0 (by norm_num)]
    decide
  have h51 : columnName 51 = "AZ" := by
    rw [columnName_rec 51 (by norm_num)]
    norm_num
    rw [columnName_single 0 (by norm_num)]
    decide
  have h52 : columnName 52 = "BA" := by
    rw [columnName_rec 52 (by norm_num)]
    norm_num
    rw [columnName_single 1 (by norm_num)]
    decide
  have h701 : columnName 701 = "ZZ" := by
    rw [columnName_rec 701 (by norm_num)]
    norm_num
    rw [columnName_single 25 (by norm_num)]
    decide
  have h702 : columnName 702 = "AAA" := by
    rw [columnName_rec 702 (by norm_num)]
    norm_num
    rw [h26]
    decide
  exact ⟨⟨h0, h25, h26, h51, h52, h701, h702⟩, columnName_single, columnName_rec,
    fun _ _ => rfl, writeRow_inplace_content, writeRow_roll_content⟩

/-- An open worksheet record holding exactly 2 rows. -/
def fullSheet : SheetRec :=
  { content := [worksheetHeader ++ "\n"]
    rowCount := 2
    sheetIndex := 0
    headersDone := false
    closed := false }

/-- A writer whose single open worksheet holds exactly the configured
ceiling of 2 rows (the next row triggers rollover). -/
def fullSheetState : WriterState :=
  { config := { defaultConfig with maxRowsPerSheet := 2 }
    started := true
    finished := false
    sheetWriters := [fullSheet]
    currentSheetIndex := 0
    totalRows := 2
    entries := []
    ioIdx := 0 }

/-- Witness for C8 at concrete inputs: the single-letter law at 3, the
recurrence at 100, and both row-addressing clauses on concrete states. -/
theorem c8_cell_addressing_witness :
    (3 < 26 ∧ columnName 3 = (Char.ofNat (65 + 3)).toString) ∧
    (26 ≤ 100 ∧
      columnName 100 = columnName (100 / 26 - 1) ++ (Char.ofNat (65 + 100 % 26)).toString) ∧
    ((writeRow allOk (startedBase defaultConfig) [Value.intV 7]).2.sheetWriters.getLast? =
      some { content := [worksheetHeader ++ "\n", generateRow 0 [Value.intV 7] ++ "\n"]
             rowCount := 1
             sheetIndex := 0
             headersDone := false
             closed := false }) ∧
    ((writeRow allOk fullSheetState [Value.intV 7]).2.sheetWriters.getLast? =
      some { content := [worksheetHeader ++ "\n", generateRow 0 [Value.intV 7] ++ "\n"]
             rowCount := 1
             sheetIndex := 1
             headersDone := false
             closed := false }) := by
  refine ⟨⟨by decide, c8_cell_addressing.2.1 3 (by decide)⟩,
    ⟨by decide, c8_cell_addressing.2.2.1 100 (by decide)⟩, ?_, ?_⟩
  · have := c8_cell_addressing.2.2.2.2.1 1048576 (startedBase defaultConfig) []
      (freshSheet 0) [Value.intV 7] rfl rfl rfl rfl rfl (by decide)
    simpa [freshSheet] using this
  · have := c8_cell_addressing.2.2.2.2.2 2 fullSheetState [] fullSheet
      [Value.intV 7] rfl rfl rfl rfl rfl rfl (by decide)
    simpa using this

/-- C9: across any sequence of writes through an always-acknowledging
client, the acknowledged parts carry the dense part numbers 1, 2, ... in
order, and the completion call submits exactly that acknowledged list —
the manifest lists the `{part number, acknowledgment tag}` pairs in
acknowledgment order. -/
theorem c9_dense_parts (f : Nat → String) (partSize : Nat) (ws : List Nat) :
    ∃ stMid evsW, s3WriteAll (okClient f) (initS3 partSize) ws = (.ok (), stMid, evsW) ∧
      stMid.completedParts.map (fun p => p.partNumber) =
        List.range' 1 stMid.completedParts.length ∧
      ∃ stF evsC, s3Close (okClient f) stMid =
          (.ok (), stF, evsC ++ [.completeCall stF.completedParts]) ∧
        stF.completedParts =
          (List.range' 1 stF.completedParts.length).map (fun n => ⟨f n, n⟩) := by
  obtain ⟨stMid, evsW, hrun, hinv⟩ :=
    s3WriteAll_inv f ws (initS3 partSize) (initS3_inv f partSize)
  obtain ⟨stF, evsC, hclose, hinvF⟩ := s3Close_inv f stMid hinv
  refine ⟨stMid, evsW, hrun, ?_, stF, evsC, hclose, ?_⟩
  · obtain ⟨hpn, hparts⟩ := hinv
    have hproj : ∀ l : List Nat,
        (l.map (fun n => (⟨f n, n⟩ : CompletedPart))).map (fun p => p.partNumber) = l := by
      intro l
      induction l with
      | nil => rfl
      | cons a l ih => simp only [List.map_cons]; rw [ih]
    rw [hparts, hproj, List.length_map, List.length_range']
  · obtain ⟨hpn, hparts⟩ := hinvF
    rw [hparts]
    simp [List.length_map, List.length_range']

/-- C10: `FinishFile` marks the writer finished before any finalization
I/O, so whatever underlying writes fail, the resulting state is finished
and every later `WriteRow` or `FinishFile` fails with the
already-finished error, returning the state unchanged — a failed finish
is terminal. -/
theorem c10_failed_finish_terminal (oracle : Nat → Bool) (st : WriterState)
    (hstart : st.started = true) (hfin : st.finished = false) :
    (finishFile oracle st).2.finished = true ∧
    (∀ (oracle2 : Nat → Bool) (values : List Value),
      writeRow oracle2 (finishFile oracle st).2 values =
        (.error .alreadyFinished, (finishFile oracle st).2)) ∧
    (∀ oracle2 : Nat → Bool,
      finishFile oracle2 (finishFile oracle st).2 =
        (.error .alreadyFinished, (finishFile oracle st).2)) := by
  obtain ⟨hs', hf'⟩ := finishFile_sf oracle st hstart hfin
  refine ⟨hf', ?_, ?_⟩
  · intro oracle2 values
    rw [writeRow, hs', hf']
    rfl
  · intro oracle2
    rw [finishFile, hs', hf']
    rfl

/-- The oracle of a sink that rejects every write. -/
def noWrites : Nat → Bool := fun _ => false

/-- Witness for C10 on a started writer whose sink rejects every
finalization write. -/
theorem c10_failed_finish_witness :
    ((startedBase defaultConfig).started = true ∧
      (startedBase defaultConfig).finished = false) ∧
    ((finishFile noWrites (startedBase defaultConfig)).2.finished = true ∧
    (∀ (oracle2 : Nat → Bool) (values : List Value),
      writeRow oracle2 (finishFile noWrites (startedBase defaultConfig)).2 values =
        (.error .alreadyFinished, (finishFile noWrites (startedBase defaultConfig)).2)) ∧
    (∀ oracle2 : Nat → Bool,
      finishFile oracle2 (finishFile noWrites (startedBase defaultConfig)).2 =
        (.error .alreadyFinished, (finishFile noWrites (startedBase defaultConfig)).2))) :=
  ⟨⟨rfl, rfl⟩, c10_failed_finish_terminal noWrites (startedBase defaultConfig) rfl rfl⟩

end Kolayxlsxstream
